import Mathlib

/-!
Verification of the thumbnailr batch handler (`src/main.rs`).

The program receives a batch of S3 notification records.  For each record it
extracts a `(bucket, key)` pair (`get_file_props`), fetches the object bytes
from the store (`client.get_file`), derives a thumbnail (`get_thumbnail`),
and writes the result to the bucket named `bucket ++ "-thumbs"` under the
same key (`client.put_file`).  Each stage's failure is logged and the loop
moves to the next record; the handler itself always returns `Ok(())`.

The embedding below mirrors the Rust source.  Byte vectors become
`List Nat`.  The injected store client (`GetFile + PutFile` traits) becomes a
structure of pure functions, and the thumbnail transform (an external image
codec) is a parameter of the handler.  Collaborator calls are recorded in an
explicit event trace so that "stage X is never invoked for record r" becomes
a statement about trace membership.
-/

/-- Byte sequences (Rust `Vec<u8>`). -/
abbrev Bytes := List Nat

/-- The `bucket` part of an S3 notification record: `record.s3.bucket.name`
is an optional string (`aws_lambda_events::s3::S3Bucket`). -/
structure S3Bucket where
  name : Option String
deriving DecidableEq, Repr

/-- The `object` part of an S3 notification record: `record.s3.object.key`
is an optional string (`aws_lambda_events::s3::S3Object`). -/
structure S3Object where
  key : Option String
deriving DecidableEq, Repr

/-- The `s3` payload of a record, holding the bucket and object parts. -/
structure S3Entity where
  bucket : S3Bucket
  object : S3Object
deriving DecidableEq, Repr

/-- One notification record (`aws_lambda_events::s3::S3EventRecord`),
restricted to the fields the program reads: `event_name`,
`s3.bucket.name` and `s3.object.key`. -/
structure S3EventRecord where
  event_name : Option String
  s3 : S3Entity
deriving DecidableEq, Repr

/-- The injected store client: the `GetFile` and `PutFile` traits of
`src/s3.rs`.  `get_file` returns the object bytes or an error message;
`put_file` returns a success message or an error message.  The client is a
fixed map from requests to responses, representing one external store
state. -/
structure Client where
  get_file : String → String → Except String Bytes
  put_file : String → String → Bytes → Except String String

/-- One observable action of the handler: a collaborator call
(store fetch, thumbnail transform, store write) or a `tracing::info!`
log line. -/
inductive Event where
  | getFile (bucket key : String)
  | thumbnail (image : Bytes) (size : Nat)
  | putFile (bucket key : String) (bytes : Bytes)
  | log (msg : String)
deriving DecidableEq, Repr

/-- Rust `str::starts_with(pat)`: the pattern's character sequence is an
initial segment of the string's character sequence. -/
def str_starts_with (s pat : String) : Bool :=
  pat.data.isPrefixOf s.data

/-- Rust `str::is_empty`: the string has no characters. -/
def str_is_empty (s : String) : Bool :=
  s.data.isEmpty

/-- `get_file_props` from `src/main.rs`: validates one record and extracts
`(bucket, key)`.  `Option.filter`/`ok_or` chains translate directly:
the event name must be present and start with `"ObjectCreated"`, the bucket
name and object key must be present and non-empty. -/
def get_file_props (record : S3EventRecord) : Except String (String × String) :=
  match record.event_name.filter (fun s => str_starts_with s "ObjectCreated") with
  | none => Except.error "Wrong event"
  | some _ =>
    match record.s3.bucket.name.filter (fun s => ! str_is_empty s) with
    | none => Except.error "No bucket name"
    | some bucket =>
      match record.s3.object.key.filter (fun s => ! str_is_empty s) with
      | none => Except.error "No object key"
      | some key => Except.ok (bucket, key)

/-- `get_thumbnail` from `src/main.rs` (the non-test version), with the
external `thumbnailer` library call and the PNG encoder as parameters:
`create_thumbnails` stands for `thumbnailer::create_thumbnails` (returning
the produced thumbnails or a codec error) and `write_png` for
`Thumbnail::write_png` into a fresh buffer.  `thumbnails.pop()` takes the
last element of the vector; an empty vector is the
`"No thumbnail created"` error. -/
def get_thumbnail (create_thumbnails : Bytes → Nat → Except String (List Bytes))
    (write_png : Bytes → Except Unit Bytes) (vec : Bytes) (size : Nat) :
    Except String Bytes :=
  match create_thumbnails vec size with
  | Except.error thumb_error => Except.error thumb_error
  | Except.ok thumbnails =>
    match thumbnails.getLast? with
    | none => Except.error "No thumbnail created"
    | some thumbnail =>
      match write_png thumbnail with
      | Except.ok buf => Except.ok buf
      | Except.error _ => Except.error "Unknown error when Thumbnail::write_png"

/-- The body of the `for record in records` loop of `function_handler` for a
single record, as the trace of events it emits.  `gt` is the thumbnail
transform (`get_thumbnail` with its codec fixed).  Mirrors the four
`match`/`continue` stages of `src/main.rs` lines 30-63. -/
def processRecord (client : Client) (gt : Bytes → Nat → Except String Bytes)
    (size : Nat) (record : S3EventRecord) : List Event :=
  match get_file_props record with
  | Except.error msg => [Event.log ("Record skipped with reason: " ++ msg)]
  | Except.ok (bucket, key) =>
    Event.getFile bucket key ::
      match client.get_file bucket key with
      | Except.error msg => [Event.log ("Can not get file from S3: " ++ msg)]
      | Except.ok image =>
        Event.thumbnail image size ::
          match gt image size with
          | Except.error msg => [Event.log ("Can not create thumbnail: " ++ msg)]
          | Except.ok thumbnail =>
            Event.putFile (bucket ++ "-thumbs") key thumbnail ::
              match client.put_file (bucket ++ "-thumbs") key thumbnail with
              | Except.ok msg => [Event.log msg]
              | Except.error msg => [Event.log ("Can not upload thumbnail: " ++ msg)]

/-- The `for` loop of `function_handler`: records are processed one at a
time, in the order supplied, each contributing its own events. -/
def processBatch (client : Client) (gt : Bytes → Nat → Except String Bytes)
    (size : Nat) : List S3EventRecord → List Event
  | [] => []
  | record :: rest =>
      processRecord client gt size record ++ processBatch client gt size rest

/-- `function_handler` from `src/main.rs`: runs the loop over the batch and
returns `Ok(())`.  The result pairs the emitted event trace with the
handler's `Result<(), Error>` value. -/
def function_handler (client : Client) (gt : Bytes → Nat → Except String Bytes)
    (size : Nat) (records : List S3EventRecord) :
    List Event × Except String Unit :=
  (processBatch client gt size records, Except.ok ())

/-- The reference extractor as §4.1 of the spec states it, written from the
spec's words for comparison with `get_file_props`: reject with the
wrong-event reason when `eventName` is absent or lacks the creation
prefix, with the missing-container reason when the bucket name is absent
or empty, with the missing-key reason when the key is absent or empty;
otherwise return the pair. -/
def referenceExtractorSpec (record : S3EventRecord) :
    Except String (String × String) :=
  match record.event_name with
  | none => Except.error "Wrong event"
  | some e =>
    if str_starts_with e "ObjectCreated" then
      match record.s3.bucket.name with
      | none => Except.error "No bucket name"
      | some b =>
        if b = "" then Except.error "No bucket name"
        else
          match record.s3.object.key with
          | none => Except.error "No object key"
          | some k =>
            if k = "" then Except.error "No object key"
            else Except.ok (b, k)
    else Except.error "Wrong event"

/-- The destination writes of a trace: the store-write calls, each as
`(bucket, key, bytes)`, in order. -/
def writes : List Event → List (String × String × Bytes)
  | [] => []
  | Event.putFile b k bytes :: rest => (b, k, bytes) :: writes rest
  | _ :: rest => writes rest

/-- A concrete record used by witnesses: a valid creation event for bucket
`"photos"`, key `"a.png"`. -/
def recPhotos : S3EventRecord :=
  ⟨some "ObjectCreated:Put", ⟨⟨some "photos"⟩, ⟨some "a.png"⟩⟩⟩

/-- A concrete record used by witnesses: a deletion event (wrong type) whose
bucket name is also empty. -/
def recDelete : S3EventRecord :=
  ⟨some "ObjectRemoved:Delete", ⟨⟨some ""⟩, ⟨some "a.png"⟩⟩⟩

/-- A concrete client used by witnesses: fetch yields the bytes `[7]` for
every request, writes always succeed. -/
def clientOk : Client :=
  ⟨fun _ _ => Except.ok [7], fun _ _ _ => Except.ok "stored"⟩

/-- A concrete client used by witnesses: every fetch fails. -/
def clientFetchFail : Client :=
  ⟨fun _ _ => Except.error "denied", fun _ _ _ => Except.ok "stored"⟩

/-- A concrete transform used by witnesses: maps any image to `[1]`. -/
def thumbOk : Bytes → Nat → Except String Bytes :=
  fun _ _ => Except.ok [1]

/-- A concrete transform used by witnesses: always fails. -/
def thumbFail : Bytes → Nat → Except String Bytes :=
  fun _ _ => Except.error "undecodable"

/-- A concrete client used by witnesses: same fetch behaviour as
`clientOk`, but every write fails. -/
def clientPutFail : Client :=
  ⟨fun _ _ => Except.ok [7], fun _ _ _ => Except.error "denied"⟩

/-- A concrete codec used by witnesses: produces zero thumbnails. -/
def ctEmpty : Bytes → Nat → Except String (List Bytes) :=
  fun _ _ => Except.ok []

/-- A concrete PNG encoder used by witnesses: echoes its input. -/
def wpOk : Bytes → Except Unit Bytes :=
  fun b => Except.ok b

/-- A second concrete record, field-for-field equal to `recPhotos`. -/
def recPhotos2 : S3EventRecord :=
  ⟨some "ObjectCreated:Put", ⟨⟨some "photos"⟩, ⟨some "a.png"⟩⟩⟩

/-- A concrete record used by witnesses: valid creation event, absent
bucket name, empty key. -/
def recNoBucket : S3EventRecord :=
  ⟨some "ObjectCreated:Put", ⟨⟨none⟩, ⟨some ""⟩⟩⟩

/-- A concrete record used by witnesses: valid creation event and bucket,
absent key. -/
def recNoKey : S3EventRecord :=
  ⟨some "ObjectCreated:Put", ⟨⟨some "photos"⟩, ⟨none⟩⟩⟩

/-- C1: for every batch, target size, store client and thumbnail transform,
`function_handler` returns `Ok(())`: no per-record failure reaches the
batch-level result. -/
theorem function_handler_always_ok (client : Client)
    (gt : Bytes → Nat → Except String Bytes) (size : Nat)
    (records : List S3EventRecord) :
    (function_handler client gt size records).2 = Except.ok () :=
  rfl

/-- C10: on an empty batch the handler returns `Ok(())` and emits no event
at all: no extractor outcome, no fetch, no transform, no write. -/
theorem empty_batch_no_calls (client : Client)
    (gt : Bytes → Nat → Except String Bytes) (size : Nat) :
    function_handler client gt size [] = ([], Except.ok ()) :=
  rfl

/-- A string that is not the empty string has at least one character. -/
theorem str_is_empty_false_of_ne (s : String) (h : s ≠ "") :
    str_is_empty s = false := by
  unfold str_is_empty
  cases hd : s.data with
  | nil => exact absurd (String.ext hd) h
  | cons c cs => rfl

/-- Shared helper: `get_file_props` agrees pointwise with the extractor the
spec describes. -/
theorem get_file_props_eq_spec (r : S3EventRecord) :
    get_file_props r = referenceExtractorSpec r := by
  obtain ⟨e?, ⟨⟨b?⟩, ⟨k?⟩⟩⟩ := r
  simp only [get_file_props, referenceExtractorSpec]
  cases e? with
  | none => rfl
  | some e =>
    cases he : str_starts_with e "ObjectCreated"
    · simp only [Option.filter, he, if_false]
      rfl
    · simp only [Option.filter, he, if_true]
      cases b? with
      | none => rfl
      | some b =>
        by_cases hb : b = ""
        · subst hb; rfl
        · simp only [str_is_empty_false_of_ne b hb, Bool.not_false, if_true,
            if_neg hb]
          cases k? with
          | none => rfl
          | some k =>
            by_cases hk : k = ""
            · subst hk; rfl
            · simp only [str_is_empty_false_of_ne k hk, Bool.not_false,
                if_true, if_neg hk]

/-- C2: `get_file_props` agrees everywhere with the extractor the spec
describes: it accepts exactly the records whose event name is present and
starts with `"ObjectCreated"` and whose bucket name and key are present and
non-empty, returning that pair, and otherwise rejects with the wrong-event,
missing-bucket or missing-key reason as the spec assigns them. -/
theorem get_file_props_matches_spec (r : S3EventRecord) :
    get_file_props r = referenceExtractorSpec r :=
  get_file_props_eq_spec r

/-- C3: for a record that passes extraction, fetch and transform, the
store's write is called with destination bucket exactly
`bucket ++ "-thumbs"` and destination key exactly the source key, with the
transform's output bytes unchanged; those three collaborator calls and one
final log line are the record's whole trace. -/
theorem valid_record_put_destination (client : Client)
    (gt : Bytes → Nat → Except String Bytes) (size : Nat)
    (r : S3EventRecord) (bucket key : String) (image thumbnail : Bytes)
    (h1 : get_file_props r = Except.ok (bucket, key))
    (h2 : client.get_file bucket key = Except.ok image)
    (h3 : gt image size = Except.ok thumbnail) :
    ∃ logMsg, processRecord client gt size r =
      [Event.getFile bucket key, Event.thumbnail image size,
       Event.putFile (bucket ++ "-thumbs") key thumbnail, Event.log logMsg] := by
  simp only [processRecord, h1, h2, h3]
  cases client.put_file (bucket ++ "-thumbs") key thumbnail with
  | ok msg => exact ⟨msg, rfl⟩
  | error msg => exact ⟨"Can not upload thumbnail: " ++ msg, rfl⟩

/-- Witness for C3 at the record `recPhotos` with `clientOk` and
`thumbOk`. -/
theorem valid_record_put_destination_witness :
    get_file_props recPhotos = Except.ok ("photos", "a.png") ∧
    clientOk.get_file "photos" "a.png" = Except.ok [7] ∧
    thumbOk [7] 128 = Except.ok [1] ∧
    ∃ logMsg, processRecord clientOk thumbOk 128 recPhotos =
      [Event.getFile "photos" "a.png", Event.thumbnail [7] 128,
       Event.putFile ("photos" ++ "-thumbs") "a.png" [1], Event.log logMsg] :=
  ⟨rfl, rfl, rfl,
    valid_record_put_destination clientOk thumbOk 128 recPhotos "photos"
      "a.png" [7] [1] rfl rfl rfl⟩

/-- C4: records are processed sequentially in the order supplied, and the
events record `r` contributes are `processRecord r` — a function of `r`
alone — whatever the records before and after it are and however they
fail. -/
theorem batch_record_independence (client : Client)
    (gt : Bytes → Nat → Except String Bytes) (size : Nat)
    (pre post : List S3EventRecord) (r : S3EventRecord) :
    processBatch client gt size (pre ++ r :: post) =
      processBatch client gt size pre ++
        processRecord client gt size r ++ processBatch client gt size post := by
  induction pre with
  | nil => simp [processBatch]
  | cons p ps ih => simp [processBatch, ih]

/-- C5: a record rejected by `get_file_props` produces no fetch, no
transform and no write call: its whole trace is one skip log line. -/
theorem rejected_record_no_calls (client : Client)
    (gt : Bytes → Nat → Except String Bytes) (size : Nat)
    (r : S3EventRecord) (msg : String)
    (h : get_file_props r = Except.error msg) :
    (∀ b k, Event.getFile b k ∉ processRecord client gt size r) ∧
    (∀ img sz, Event.thumbnail img sz ∉ processRecord client gt size r) ∧
    (∀ b k bytes, Event.putFile b k bytes ∉ processRecord client gt size r) := by
  simp [processRecord, h]

/-- Witness for C5 at the deletion-event record `recDelete`. -/
theorem rejected_record_no_calls_witness :
    get_file_props recDelete = Except.error "Wrong event" ∧
    Event.getFile "photos" "a.png" ∉ processRecord clientOk thumbOk 128 recDelete ∧
    Event.thumbnail [7] 128 ∉ processRecord clientOk thumbOk 128 recDelete ∧
    Event.putFile "photos-thumbs" "a.png" [1] ∉
      processRecord clientOk thumbOk 128 recDelete :=
  ⟨rfl,
    (rejected_record_no_calls clientOk thumbOk 128 recDelete "Wrong event"
      rfl).1 "photos" "a.png",
    (rejected_record_no_calls clientOk thumbOk 128 recDelete "Wrong event"
      rfl).2.1 [7] 128,
    (rejected_record_no_calls clientOk thumbOk 128 recDelete "Wrong event"
      rfl).2.2 "photos-thumbs" "a.png" [1]⟩

/-- C6: when fetch fails for a record the transform is never invoked for
it; when the transform fails the store's write is never invoked for it;
and a codec run that produces zero thumbnails makes `get_thumbnail` return
the `"No thumbnail created"` error. -/
theorem stage_failure_stops_pipeline (client : Client)
    (gt : Bytes → Nat → Except String Bytes) (size : Nat)
    (r : S3EventRecord) :
    (∀ bucket key msg, get_file_props r = Except.ok (bucket, key) →
        client.get_file bucket key = Except.error msg →
        ∀ img sz, Event.thumbnail img sz ∉ processRecord client gt size r) ∧
    (∀ bucket key image msg, get_file_props r = Except.ok (bucket, key) →
        client.get_file bucket key = Except.ok image →
        gt image size = Except.error msg →
        ∀ b k bytes, Event.putFile b k bytes ∉ processRecord client gt size r) ∧
    (∀ ct wp vec sz, ct vec sz = Except.ok ([] : List Bytes) →
        get_thumbnail ct wp vec sz = Except.error "No thumbnail created") := by
  refine ⟨?_, ?_, ?_⟩
  · intro bucket key msg h1 h2 img sz
    simp [processRecord, h1, h2]
  · intro bucket key image msg h1 h2 h3 b k bytes
    simp [processRecord, h1, h2, h3]
  · intro ct wp vec sz h
    simp [get_thumbnail, h]

/-- Witness for C6: fetch failure at `clientFetchFail`, transform failure
at `thumbFail`, and the zero-thumbnail codec `ctEmpty`. -/
theorem stage_failure_stops_pipeline_witness :
    (get_file_props recPhotos = Except.ok ("photos", "a.png") ∧
      clientFetchFail.get_file "photos" "a.png" = Except.error "denied" ∧
      Event.thumbnail [7] 128 ∉
        processRecord clientFetchFail thumbOk 128 recPhotos) ∧
    (clientOk.get_file "photos" "a.png" = Except.ok [7] ∧
      thumbFail [7] 128 = Except.error "undecodable" ∧
      Event.putFile "photos-thumbs" "a.png" [1] ∉
        processRecord clientOk thumbFail 128 recPhotos) ∧
    (ctEmpty [7] 128 = Except.ok [] ∧
      get_thumbnail ctEmpty wpOk [7] 128 =
        Except.error "No thumbnail created") :=
  ⟨⟨rfl, rfl,
      (stage_failure_stops_pipeline clientFetchFail thumbOk 128 recPhotos).1
        "photos" "a.png" "denied" rfl rfl [7] 128⟩,
    ⟨rfl, rfl,
      (stage_failure_stops_pipeline clientOk thumbFail 128 recPhotos).2.1
        "photos" "a.png" [7] "undecodable" rfl rfl rfl "photos-thumbs"
        "a.png" [1]⟩,
    ⟨rfl,
      (stage_failure_stops_pipeline clientOk thumbOk 128 recPhotos).2.2
        ctEmpty wpOk [7] 128 rfl⟩⟩

/-- The write calls of a concatenated trace are the concatenated write
calls. -/
theorem writes_append (l1 l2 : List Event) :
    writes (l1 ++ l2) = writes l1 ++ writes l2 := by
  induction l1 with
  | nil => rfl
  | cons e rest ih => cases e <;> simp [writes, ih]

/-- Two clients with the same fetch behaviour give one record the same
write calls, whatever their write outcomes. -/
theorem writes_processRecord_congr (c1 c2 : Client)
    (gt : Bytes → Nat → Except String Bytes) (size : Nat) (r : S3EventRecord)
    (h : ∀ bucket key, c1.get_file bucket key = c2.get_file bucket key) :
    writes (processRecord c1 gt size r) =
      writes (processRecord c2 gt size r) := by
  cases hp : get_file_props r with
  | error msg => simp [processRecord, hp]
  | ok bk =>
    obtain ⟨bucket, key⟩ := bk
    cases hg : c2.get_file bucket key with
    | error msg => simp [processRecord, hp, hg, (h bucket key).trans hg]
    | ok image =>
      cases ht : gt image size with
      | error msg =>
        simp [processRecord, hp, hg, (h bucket key).trans hg, ht, writes]
      | ok thumbnail =>
        simp only [processRecord, hp, hg, (h bucket key).trans hg, ht]
        cases c1.put_file (bucket ++ "-thumbs") key thumbnail <;>
          cases c2.put_file (bucket ++ "-thumbs") key thumbnail <;>
            simp [writes]

/-- C7: with the same batch, the same target size, the same transform and
the same external store state (pointwise-equal fetch results), two handler
invocations produce exactly the same destination writes — same buckets,
same keys, same thumbnail bytes, in the same order. -/
theorem same_fetch_same_writes (c1 c2 : Client)
    (gt : Bytes → Nat → Except String Bytes) (size : Nat)
    (records : List S3EventRecord)
    (h : ∀ bucket key, c1.get_file bucket key = c2.get_file bucket key) :
    writes (function_handler c1 gt size records).1 =
      writes (function_handler c2 gt size records).1 := by
  show writes (processBatch c1 gt size records) =
    writes (processBatch c2 gt size records)
  induction records with
  | nil => rfl
  | cons r rest ih =>
    simp only [processBatch, writes_append, ih,
      writes_processRecord_congr c1 c2 gt size r h]

/-- Witness for C7: `clientOk` and `clientPutFail` fetch identically, so
the batch `[recPhotos]` yields the same writes under both. -/
theorem same_fetch_same_writes_witness :
    clientOk.get_file "photos" "a.png" = clientPutFail.get_file "photos" "a.png" ∧
    writes (function_handler clientOk thumbOk 128 [recPhotos]).1 =
      writes (function_handler clientPutFail thumbOk 128 [recPhotos]).1 :=
  ⟨rfl, same_fetch_same_writes clientOk clientPutFail thumbOk 128 [recPhotos]
    (fun _ _ => rfl)⟩

/-- C8: `get_file_props` is a pure, deterministic function of the record it
is given — two records agreeing on the three fields it reads get equal
results — and its result type carries no events, so it makes no
collaborator calls. -/
theorem get_file_props_deterministic (r1 r2 : S3EventRecord)
    (h1 : r1.event_name = r2.event_name)
    (h2 : r1.s3.bucket.name = r2.s3.bucket.name)
    (h3 : r1.s3.object.key = r2.s3.object.key) :
    get_file_props r1 = get_file_props r2 := by
  simp only [get_file_props, h1, h2, h3]

/-- Witness for C8 at the field-for-field equal records `recPhotos` and
`recPhotos2`. -/
theorem get_file_props_deterministic_witness :
    recPhotos.event_name = recPhotos2.event_name ∧
    get_file_props recPhotos = get_file_props recPhotos2 :=
  ⟨rfl, get_file_props_deterministic recPhotos recPhotos2 rfl rfl rfl⟩

/-- C9: when several checks fail at once exactly one reason is reported,
by fixed precedence: event name first (wrong event wins over a bad bucket
or key), then bucket (missing bucket wins over a bad key), then key. -/
theorem reject_reason_precedence (r : S3EventRecord) :
    ((∀ e, r.event_name = some e →
        str_starts_with e "ObjectCreated" = false) →
      get_file_props r = Except.error "Wrong event") ∧
    (∀ e, r.event_name = some e → str_starts_with e "ObjectCreated" = true →
      (∀ b, r.s3.bucket.name = some b → b = "") →
      get_file_props r = Except.error "No bucket name") ∧
    (∀ e, r.event_name = some e → str_starts_with e "ObjectCreated" = true →
      ∀ b, r.s3.bucket.name = some b → b ≠ "" →
      (∀ k, r.s3.object.key = some k → k = "") →
      get_file_props r = Except.error "No object key") := by
  refine ⟨?_, ?_, ?_⟩
  · intro hE
    rw [get_file_props_eq_spec]
    unfold referenceExtractorSpec
    cases he : r.event_name with
    | none => rfl
    | some e => simp [hE e he]
  · intro e he hs hb
    rw [get_file_props_eq_spec]
    unfold referenceExtractorSpec
    rw [he]
    simp only [hs, if_true]
    cases hbn : r.s3.bucket.name with
    | none => rfl
    | some b => simp [hb b hbn]
  · intro e he hs b hbn hb hk
    rw [get_file_props_eq_spec]
    unfold referenceExtractorSpec
    rw [he]
    simp only [hs, if_true]
    rw [hbn]
    simp only [if_neg hb]
    cases hkn : r.s3.object.key with
    | none => rfl
    | some k => simp [hk k hkn]

/-- Witness for C9: a deletion event with an empty bucket name is rejected
for the event type; a creation event with no bucket and an empty key is
rejected for the bucket; a creation event with a bucket but no key is
rejected for the key. -/
theorem reject_reason_precedence_witness :
    get_file_props recDelete = Except.error "Wrong event" ∧
    get_file_props recNoBucket = Except.error "No bucket name" ∧
    get_file_props recNoKey = Except.error "No object key" :=
  ⟨(reject_reason_precedence recDelete).1
      (fun e he => by injection he with h; subst h; rfl),
    (reject_reason_precedence recNoBucket).2.1 "ObjectCreated:Put" rfl rfl
      (fun b hb => Option.noConfusion hb),
    (reject_reason_precedence recNoKey).2.2 "ObjectCreated:Put" rfl rfl
      "photos" rfl (by decide) (fun k hk => Option.noConfusion hk)⟩
